import Mathlib

/-
Verification of the comonad_rust repository (src/src/lib.rs): an
environment-aware container (struct CoMonad) with free-function and
method forms of extract, fmap, duplicate and extend, plus a monadic
checked-addition pipeline over an Option, and two example drivers.

Floating-point values appearing in the comonad driver (14.0, 15.0,
1.0 and f64 PI) are modelled by exact rationals: every f64 operation
the driver performs on them (the additions 14.0 + 1.0 and 15.0 + 1.0)
is exact in IEEE-754 binary64, so the rational model computes the
bit-identical results.
-/

/-- Environment-aware container from the source: a value of type T paired
with an environment of type V (struct CoMonad, src/src/lib.rs lines 23-27). -/
structure CoMonad (T V : Type) : Type where
  value : T
  env : V
deriving DecidableEq, Repr

/-- extract as a free function: returns a copy of the contained value
(src/src/lib.rs lines 34-37). Clone is the identity in the model. -/
def extract {T V : Type} (input : CoMonad T V) : T :=
  input.value

/-- fmap as a free function: applies func to the extracted value, keeps env
(src/src/lib.rs lines 39-48). The Rust closure is curried the same way. -/
def fmap {O T V : Type} (func : T → O) (input : CoMonad T V) : CoMonad O V :=
  ⟨func (extract input), input.env⟩

/-- duplicate as a free function: wraps the whole container as the new value,
copies env into the outer wrapper (src/src/lib.rs lines 50-56). -/
def duplicate {T V : Type} (input : CoMonad T V) : CoMonad (CoMonad T V) V :=
  ⟨input, input.env⟩

/-- extend as a free function: fmap func after duplicate
(src/src/lib.rs lines 58-63). -/
def extend {T V O : Type} (func : CoMonad T V → O) (input : CoMonad T V) :
    CoMonad O V :=
  fmap func (duplicate input)

/-- extract in method form (src/src/lib.rs lines 67-70). -/
def CoMonad.extract {T V : Type} (self : CoMonad T V) : T :=
  self.value

/-- fmap in method form (src/src/lib.rs lines 72-78). -/
def CoMonad.fmap {T V O : Type} (self : CoMonad T V) (func : T → O) :
    CoMonad O V :=
  ⟨func self.extract, self.env⟩

/-- duplicate in method form (src/src/lib.rs lines 80-86). -/
def CoMonad.duplicate {T V : Type} (self : CoMonad T V) :
    CoMonad (CoMonad T V) V :=
  ⟨self, self.env⟩

/-- extend in method form: duplicate then fmap (src/src/lib.rs lines 88-93). -/
def CoMonad.extend {T V O : Type} (self : CoMonad T V)
    (func : CoMonad T V → O) : CoMonad O V :=
  self.duplicate.fmap func

/-- u16 checked addition: some of the exact sum when it fits in 16 bits,
none on overflow; models u16 checked_add as used at src/src/lib.rs line 13
(operands are naturals, matching u16 values embedded into Nat). -/
def checked_add (v d : Nat) : Option Nat :=
  if v + d ≤ 65535 then some (v + d) else none

/-- The optional pipeline of the monad driver, generalized over the delta as
the spec names it: an absent value stays absent, a present value is
checked-added (src/src/lib.rs line 13, and_then composed with checked_add;
the driver instantiates delta with 586). -/
def safe_add (maybe_value : Option Nat) (delta : Nat) : Option Nat :=
  maybe_value.bind (fun v => checked_add v delta)

/-- The ten-element vector the monad driver collects from ten random u16
draws, modelled by an arbitrary draw sequence (src/src/lib.rs line 10). -/
def monadVec (draws : Nat → Nat) : List Nat :=
  (List.range 10).map draws

/-- The monad driver final value: element 4 of the vector looked up
fallibly, then checked-added with 586 (src/src/lib.rs line 13). -/
def monadVal (vec : List Nat) : Option Nat :=
  safe_add vec[4]? 586

/-- The contents of the global HEIGHT cell at program start, 15.0
(src/src/lib.rs line 20); exactly representable in f64. -/
def HEIGHT : ℚ :=
  15

/-- The exact rational value of the f64 constant PI
(884279719003555 times two to the minus 48). -/
def pi64 : ℚ :=
  884279719003555 / 281474976710656

/-- Function which adds one (src/src/lib.rs lines 29-32). -/
def add_one (x : ℚ) : ℚ :=
  x + 1

/-- The impure volume closure of the comonad driver: reads the global
height, which the embedding passes as an explicit state argument
(src/src/lib.rs lines 97-100). -/
def vol_impure (height : ℚ) (radius : ℚ) : ℚ :=
  pi64 * radius * height

/-- The pure volume closure that captures the environment in the container
(src/src/lib.rs lines 102-105). -/
def vol_pure (radius : CoMonad ℚ ℚ) : ℚ :=
  pi64 * radius.value * radius.env

/-- The container the comonad driver constructs: value 14.0, env read from
the global cell, whose contents are passed explicitly as height
(src/src/lib.rs lines 110-113). -/
def comonadOf (height : ℚ) : CoMonad ℚ ℚ :=
  ⟨14, height⟩

/-- The mapped container added_one of the driver (src/src/lib.rs line 115). -/
def added_one (height : ℚ) : CoMonad ℚ ℚ :=
  (comonadOf height).fmap add_one

/-- The closure add_one_pure of the driver: extracts the value and adds one,
ignoring env (src/src/lib.rs lines 116-118). -/
def add_one_pure (inp : CoMonad ℚ ℚ) : ℚ :=
  inp.value + 1

/-- res_0 of the driver, method-extend path, as a function of the global
cell contents (src/src/lib.rs line 120). -/
def res_0 (height : ℚ) : ℚ :=
  add_one_pure ((comonadOf height).extend add_one_pure)

/-- res_1 of the driver, free-function-extend path (src/src/lib.rs
line 122). -/
def res_1 (height : ℚ) : ℚ :=
  add_one_pure (extend add_one_pure (comonadOf height))

/-- C1: Comonad left identity: for every container c and function f,
extracting from the extension of c by f gives f applied to c, in both the
free-function and the method form of extend. -/
theorem comonad_left_identity {T V O : Type} (c : CoMonad T V)
    (f : CoMonad T V → O) :
    extract (extend f c) = f c ∧ (c.extend f).extract = f c :=
  ⟨rfl, rfl⟩

/-- C2: Comonad right identity: extending a container by extract yields a
container with the same value and env, hence the same container; this holds
for both call-site forms. -/
theorem comonad_right_identity {T V : Type} (c : CoMonad T V) :
    (extend extract c).value = c.value ∧ (extend extract c).env = c.env ∧
    extend extract c = c ∧ c.extend CoMonad.extract = c :=
  ⟨rfl, rfl, rfl, rfl⟩

/-- C3: Comonad associativity: extending twice equals one extension by the
composed context-aware function, in both value and env, for both call-site
forms. -/
theorem comonad_associativity {T V O P : Type} (c : CoMonad T V)
    (f : CoMonad T V → O) (g : CoMonad O V → P) :
    extend g (extend f c) = extend (fun d => g (extend f d)) c ∧
    (c.extend f).extend g = c.extend (fun d => g (d.extend f)) :=
  ⟨rfl, rfl⟩

/-- C4: Functor laws: mapping the identity preserves value and env, and
mapping twice equals mapping the composition, for both call-site forms. -/
theorem functor_laws {T V O P : Type} (c : CoMonad T V) (f : T → O)
    (g : O → P) :
    fmap id c = c ∧ c.fmap id = c ∧
    fmap g (fmap f c) = fmap (fun x => g (f x)) c ∧
    (c.fmap f).fmap g = c.fmap (fun x => g (f x)) :=
  ⟨rfl, rfl, rfl, rfl⟩

/-- C5: safe_add behaviour: an absent input yields absent; a present value
yields the exact sum when it fits the unsigned 16-bit range and absent when
it overflows, never a wrapped sum; in particular the maximum value plus one
is absent and 5 plus 586 is 591. -/
theorem safe_add_spec :
    (∀ d : Nat, safe_add none d = none) ∧
    (∀ v d : Nat,
      safe_add (some v) d =
        if v + d ≤ 65535 then some (v + d) else none) ∧
    safe_add (some 65535) 1 = none ∧
    safe_add (some 5) 586 = some 591 :=
  ⟨fun _ => rfl, fun _ _ => rfl, by decide, by decide⟩

/-- C6: Concrete scenario of the comonad driver: with value 14.0 and env
15.0, the mapped container holds 15.0, extracting from the extension by
add_one_pure gives 15.0 matching the mapped result, and the two results the
driver compares (method-extend path and free-extend path) are identical. -/
theorem concrete_scenario :
    (added_one HEIGHT).value = 15 ∧
    extract ((comonadOf HEIGHT).extend add_one_pure) = 15 ∧
    (added_one HEIGHT).value =
      extract ((comonadOf HEIGHT).extend add_one_pure) ∧
    res_0 HEIGHT = res_1 HEIGHT := by
  refine ⟨?_, ?_, ?_, rfl⟩ <;>
    norm_num [added_one, comonadOf, CoMonad.fmap, CoMonad.extract,
      CoMonad.extend, CoMonad.duplicate, add_one, add_one_pure, extract,
      HEIGHT]

/-- C7: Free-function/method equivalence: on every container, the
standalone extract, fmap, duplicate and extend agree with the corresponding
CoMonad methods. -/
theorem free_method_equivalence {T V O : Type} (c : CoMonad T V)
    (f : T → O) (g : CoMonad T V → O) :
    extract c = c.extract ∧ fmap f c = c.fmap f ∧
    duplicate c = c.duplicate ∧ extend g c = c.extend g :=
  ⟨rfl, rfl, rfl, rfl⟩

set_option maxRecDepth 4000 in
/-- C8: Index-lookup scenario: whatever the ten random draws, the generated
vector has exactly ten elements, the lookup at index 4 succeeds with the
fifth draw, and the driver's final value is absent exactly when adding 586
to that element leaves the unsigned 16-bit range. -/
theorem index_lookup_scenario (draws : Nat → Nat) :
    (monadVec draws).length = 10 ∧
    (monadVec draws)[4]? = some (draws 4) ∧
    (monadVal (monadVec draws) = none ↔ 65535 < draws 4 + 586) := by
  have hr : List.range 10 = [0, 1, 2, 3, 4, 5, 6, 7, 8, 9] := by decide
  have hv : monadVec draws = [draws 0, draws 1, draws 2, draws 3, draws 4,
      draws 5, draws 6, draws 7, draws 8, draws 9] := by
    rw [monadVec, hr]; rfl
  refine ⟨by rw [hv]; rfl, by rw [hv]; rfl, ?_⟩
  have h : monadVal (monadVec draws) =
      if draws 4 + 586 ≤ 65535 then some (draws 4 + 586) else none := by
    rw [monadVal, hv]; rfl
  rw [h]
  split <;> rename_i hle <;> simp <;> omega

/-- C9: Totality: each core operation returns, for every input, the
explicitly constructed well-formed container or value given by its
characterizing equation, and the optional pipeline always returns either
absent or the present exact (non-wrapped) sum; no other outcome exists. -/
theorem totality_of_operations :
    (∀ (T V : Type) (c : CoMonad T V),
      extract c = c.value ∧ c.extract = c.value) ∧
    (∀ (T V O : Type) (f : T → O) (c : CoMonad T V),
      fmap f c = ⟨f c.value, c.env⟩ ∧ c.fmap f = ⟨f c.value, c.env⟩) ∧
    (∀ (T V : Type) (c : CoMonad T V),
      duplicate c = ⟨c, c.env⟩ ∧ c.duplicate = ⟨c, c.env⟩) ∧
    (∀ (T V O : Type) (f : CoMonad T V → O) (c : CoMonad T V),
      extend f c = ⟨f c, c.env⟩ ∧ c.extend f = ⟨f c, c.env⟩) ∧
    (∀ (m : Option Nat) (d : Nat),
      safe_add m d = none ∨
      ∃ v, m = some v ∧ v + d ≤ 65535 ∧ safe_add m d = some (v + d)) := by
  refine ⟨fun _ _ _ => ⟨rfl, rfl⟩, fun _ _ _ _ _ => ⟨rfl, rfl⟩,
    fun _ _ _ => ⟨rfl, rfl⟩, fun _ _ _ _ _ => ⟨rfl, rfl⟩, ?_⟩
  intro m d
  cases m with
  | none => exact Or.inl rfl
  | some v =>
    by_cases hle : v + d ≤ 65535
    · exact Or.inr ⟨v, rfl, hle, by simp [safe_add, checked_add, hle]⟩
    · exact Or.inl (by simp [safe_add, checked_add, hle])

/-- C10: Explicit context passing: the pure volume closure computes from
its explicit container fields exactly what the impure closure computes from
the global cell contents, the pure closure's result is a function of its
explicit value and env fields alone, and the driver's compared results are
unchanged across any two contents of the global cell. -/
theorem explicit_context_passing :
    (∀ h r : ℚ, vol_impure h r = vol_pure ⟨r, h⟩) ∧
    (∀ v e : ℚ, vol_pure ⟨v, e⟩ = pi64 * v * e) ∧
    (∀ h₁ h₂ : ℚ, res_0 h₁ = res_0 h₂ ∧ res_1 h₁ = res_1 h₂ ∧
      add_one_pure (comonadOf h₁) = add_one_pure (comonadOf h₂)) :=
  ⟨fun _ _ => rfl, fun _ _ => rfl, fun _ _ => ⟨rfl, rfl, rfl⟩⟩
